import Mathlib

/-!
# A shallow embedding of the DisCapTy core (Captcha, Challenge, CaptchaQueue)

This file models the three core units of the DisCapTy library —
`discapty/captcha.py`, `discapty/challenge.py` and `discapty/captcha_queue.py` —
as pure Lean functions, and proves properties of the challenge lifecycle,
the answer-checking predicate and the queue registry.

Modelling conventions:
* Python strings are Lean `String`s; `str.replace(" ", "")` and `str.lower()`
  become character-wise operations on `String.data`.
* Mutation is explicit state passing: an operation on a `Challenge` returns the
  updated `Challenge` together with `Except PyError result`; in Python a raised
  exception leaves the mutations performed before the `raise` in place, which the
  pair encoding preserves.
* Python truthiness of `x or default` (where `None`, `""` and `0` are falsy) is
  made explicit via `pyOrStr` / `pyOrNat`.
* Randomness (`random_code`, `uuid4`, `random.choice`) is modelled by passing the
  drawn value (or a choice index) as an explicit argument.
* The generator is modelled as a function `gen : String → CR` producing the
  rendered artifact from a code, passed to each operation that renders.
-/

deriving instance DecidableEq for Except

/-- Python `s.replace(" ", "")`: remove every space character. -/
def stripSpaces (s : String) : String :=
  String.mk (s.data.filter (fun c => c ≠ ' '))

/-- Python `s.lower()`: lowercase each character. -/
def lowerStr (s : String) : String :=
  String.mk (s.data.map Char.toLower)

/-- Python `x or default` for an optional string: `None` and `""` are falsy. -/
def pyOrStr (s : Option String) (d : String) : String :=
  match s with
  | some v => if v = "" then d else v
  | none => d

/-- Python `x or default` for an optional count: `None` and `0` are falsy. -/
def pyOrNat (n : Option Nat) (d : Nat) : Nat :=
  match n with
  | some v => if v = 0 then d else v
  | none => d

/-- `discapty.captcha.Captcha`: the pairing of a clear code and the rendered
artifact (`captcha_object`) produced from it. -/
structure Captcha (CR : Type) where
  code : String
  captcha_object : CR
  deriving DecidableEq

/-- The body of `Captcha.check(text, *, force_casing=False, remove_spaces=True)`
as a function of the stored code: spaces are removed from `text` (only) when
`remove_spaces`; both sides are lowercased when not `force_casing`; then the
transformed strings are compared. -/
def checkCode (code text : String) (force_casing : Bool) (remove_spaces : Bool) :
    Bool :=
  let t1 := if remove_spaces then stripSpaces text else text
  let t2 := if force_casing then t1 else lowerStr t1
  let c := if force_casing then code else lowerStr code
  c == t2

/-- `Captcha.check`: delegates the comparison of `text` with the stored code. -/
def Captcha.check (cap : Captcha CR) (text : String)
    (force_casing : Bool) (remove_spaces : Bool) : Bool :=
  checkCode cap.code text force_casing remove_spaces

/-- `discapty.challenge.FailReason` enum. -/
inductive FailReason where
  | TOO_MANY_RETRIES
  | CANCELLED
  deriving DecidableEq

/-- The `.value` of each `FailReason` member. -/
def FailReason.value : FailReason → String
  | .TOO_MANY_RETRIES => "Too many retries"
  | .CANCELLED => "Challenge has been cancelled"

/-- `discapty.challenge.States` enum. The spec calls `FAILURE` "CANCELLED"
(it is the state entered by `cancel`). -/
inductive States where
  | PENDING
  | WAITING
  | COMPLETED
  | FAILED
  | FAILURE
  deriving DecidableEq

/-- The Python exceptions raised by the core (`discapty/errors.py` plus the
builtin `TypeError`/`IndexError`/`KeyError` paths). Each carries the message
argument, `none` when the exception is raised with a `None` message. -/
inductive PyError where
  | TooManyRetriesError : Option String → PyError
  | ChallengeCompletionError : Option String → PyError
  | AlreadyCompletedError : Option String → PyError
  | AlreadyRunningError : Option String → PyError
  | NonexistingChallengeError : Option String → PyError
  | TypeError : Option String → PyError
  | IndexError : Option String → PyError
  deriving DecidableEq

/-- `discapty.challenge.Challenge`: mutable challenge state. The generator is
not stored (it is passed to each operation); `__last_captcha_class` and
`__last_code` are the lazy captcha cache. -/
structure Challenge (CR : Type) where
  code : String
  challenge_id : String
  allowed_retries : Nat
  failures : Nat
  attempted_tries : Nat
  state : States
  fail_reason : Option String
  last_captcha_class : Option (Captcha CR)
  last_code : Option String
  deriving DecidableEq

/-- `Challenge.__init__`: `code = code or random_code(code_length)`,
`challenge_id = str(challenge_id or uuid.uuid4())`,
`allowed_retries = allowed_retries or 3`; counters zero, state PENDING,
no fail reason, empty cache. `randomCode` is the value `random_code` would
draw and `uuid` the value `uuid.uuid4()` would draw. -/
def Challenge.init {CR : Type} (idArg : Option String) (uuid : String)
    (retriesArg : Option Nat) (codeArg : Option String) (randomCode : String) :
    Challenge CR :=
  { code := pyOrStr codeArg randomCode
    challenge_id := pyOrStr idArg uuid
    allowed_retries := pyOrNat retriesArg 3
    failures := 0
    attempted_tries := 0
    state := States.PENDING
    fail_reason := none
    last_captcha_class := none
    last_code := none }

/-- `Challenge._set_state`: always assigns the state; assigns
`fail_reason = fail_reason.value` only when the new state is FAILED or
FAILURE and a (truthy) reason was given. -/
def Challenge.setState (ch : Challenge CR) (s : States)
    (reason : Option FailReason) : Challenge CR :=
  let ch1 := { ch with state := s }
  if (ch1.state = States.FAILED ∨ ch1.state = States.FAILURE) ∧ reason.isSome
  then { ch1 with fail_reason := reason.map FailReason.value }
  else ch1

/-- `Challenge._can_be_modified`: state is PENDING or WAITING. -/
def Challenge.canBeModified (ch : Challenge CR) : Bool :=
  match ch.state with
  | States.PENDING => true
  | States.WAITING => true
  | _ => false

/-- `Challenge._create_captcha`: regenerate (and re-cache) when no captcha is
cached or the cached code differs from the current code; otherwise return the
cached captcha. Returns the captcha together with the updated challenge. -/
def Challenge.createCaptcha (gen : String → CR) (ch : Challenge CR) :
    Captcha CR × Challenge CR :=
  match ch.last_captcha_class, ch.last_code with
  | some cap, some lc =>
    if ch.code ≠ lc then
      let cap2 : Captcha CR := ⟨ch.code, gen ch.code⟩
      (cap2, { ch with last_captcha_class := some cap2, last_code := some ch.code })
    else
      (cap, ch)
  | _, _ =>
    let cap2 : Captcha CR := ⟨ch.code, gen ch.code⟩
    (cap2, { ch with last_captcha_class := some cap2, last_code := some ch.code })

/-- `Challenge.begin`: raises on FAILED / FAILURE / COMPLETED / WAITING with the
state-specific error (`reason = self.fail_reason or default` for the first two),
otherwise moves PENDING to WAITING and returns the rendered captcha object. -/
def Challenge.begin (gen : String → CR) (ch : Challenge CR) :
    Challenge CR × Except PyError CR :=
  if ch.state = States.FAILED then
    (ch, Except.error (PyError.TooManyRetriesError
      (some (pyOrStr ch.fail_reason "Failed (No failed reason)"))))
  else if ch.state = States.FAILURE then
    (ch, Except.error (PyError.ChallengeCompletionError
      (some (pyOrStr ch.fail_reason "Failure (No failure reason)"))))
  else if ch.state = States.COMPLETED then
    (ch, Except.error (PyError.AlreadyCompletedError
      (some "Challenge already completed")))
  else if ch.state = States.WAITING then
    (ch, Except.error (PyError.AlreadyRunningError
      (some "Challenge is already being ran")))
  else
    let ch1 := Challenge.setState ch States.WAITING none
    let r := Challenge.createCaptcha gen ch1
    (r.2, Except.ok r.1.captcha_object)

/-- `Challenge.check`: guard on modifiability, then `attempted_tries += 1`;
delegate the comparison to the (lazily created) captcha; on a wrong answer
`failures += 1` and, when `failures >= allowed_retries`, transition to FAILED
with reason TOO_MANY_RETRIES and raise `TooManyRetriesError(self.fail_reason)`;
on a correct answer transition to COMPLETED and return true. -/
def Challenge.check (gen : String → CR) (ch : Challenge CR) (answer : String)
    (force_casing : Bool) (remove_spaces : Bool) :
    Challenge CR × Except PyError Bool :=
  if ch.canBeModified = false then
    (ch, Except.error (PyError.TypeError (some "Challenge cannot be edited")))
  else
    let ch1 : Challenge CR := { ch with attempted_tries := ch.attempted_tries + 1 }
    let r := Challenge.createCaptcha gen ch1
    if (r.1.check answer force_casing remove_spaces) = false then
      let ch3 : Challenge CR := { r.2 with failures := r.2.failures + 1 }
      if ch3.allowed_retries ≤ ch3.failures then
        let ch4 := Challenge.setState ch3 States.FAILED
          (some FailReason.TOO_MANY_RETRIES)
        (ch4, Except.error (PyError.TooManyRetriesError ch4.fail_reason))
      else
        (ch3, Except.ok false)
    else
      (Challenge.setState r.2 States.COMPLETED none, Except.ok true)

/-- `Challenge.reload`: guard on modifiability and on PENDING; assign a fresh
random code (`newCode` is the drawn value); increment `attempted_tries` when
requested, and `failures` only additionally inside that branch; return the
rendered captcha object (which re-renders, since the code changed). -/
def Challenge.reload (gen : String → CR) (ch : Challenge CR) (newCode : String)
    (increase_attempted_tries : Bool) (increase_failures : Bool) :
    Challenge CR × Except PyError CR :=
  if ch.canBeModified = false then
    (ch, Except.error (PyError.TypeError (some "Challenge cannot be edited")))
  else if ch.state = States.PENDING then
    (ch, Except.error (PyError.TypeError (some "Challenge is not running")))
  else
    let ch1 := { ch with code := newCode }
    let ch2 :=
      if increase_attempted_tries then
        let cha := { ch1 with attempted_tries := ch1.attempted_tries + 1 }
        if increase_failures then { cha with failures := cha.failures + 1 }
        else cha
      else ch1
    let r := Challenge.createCaptcha gen ch2
    (r.2, Except.ok r.1.captcha_object)

/-- `Challenge.cancel`: guard on modifiability, then transition to FAILURE with
reason CANCELLED. -/
def Challenge.cancel (ch : Challenge CR) : Challenge CR × Except PyError Unit :=
  if ch.canBeModified = false then
    (ch, Except.error (PyError.TypeError (some "Challenge cannot be edited")))
  else
    (Challenge.setState ch States.FAILURE (some FailReason.CANCELLED),
     Except.ok ())

/-- Lookup in an association list modelling a Python `dict` keyed by strings. -/
def dictGet {α : Type} (l : List (String × α)) (k : String) : Option α :=
  match l with
  | [] => none
  | (k2, v) :: rest => if k2 = k then some v else dictGet rest k

/-- Insert-or-replace in an association list modelling a Python `dict`. -/
def dictInsert {α : Type} (l : List (String × α)) (k : String) (v : α) :
    List (String × α) :=
  match l with
  | [] => [(k, v)]
  | (k2, v2) :: rest =>
    if k2 = k then (k, v) :: rest else (k2, v2) :: dictInsert rest k v

/-- Deletion from an association list modelling a Python `dict`. -/
def dictRemove {α : Type} (l : List (String × α)) (k : String) :
    List (String × α) :=
  match l with
  | [] => []
  | (k2, v2) :: rest =>
    if k2 = k then rest else (k2, v2) :: dictRemove rest k

/-- `discapty.captcha_queue.CaptchaQueue`: the configured generators, the
identifier-to-challenge registry, and the private `__total_challenges`
counter. -/
structure CaptchaQueue (CR : Type) where
  generators : List (String → CR)
  queue : List (String × Challenge CR)
  total_challenges : Nat

/-- `CaptchaQueue.__init__`: stores the generators as given (a single generator
becomes a one-element list; an iterable is copied — an EMPTY iterable is
accepted without any check), `queue = queue or {}`, counter zero. -/
def CaptchaQueue.init (gens : List (String → CR))
    (queueArg : Option (List (String × Challenge CR))) : CaptchaQueue CR :=
  { generators := gens
    queue := queueArg.getD []
    total_challenges := 0 }

/-- `CaptchaQueue.create_challenge`: `challenge_id = challenge_id or
str(self.__total_challenges)`; `random.choice(self.generators)` (modelled by
the arbitrary index `choice`, and raising `IndexError` on an empty list);
builds the `Challenge`, stores it under the identifier (overwriting), and
increments the counter unconditionally. -/
def CaptchaQueue.create_challenge (q : CaptchaQueue CR) (choice : Nat)
    (idArg : Option String) (uuid : String) (retries : Option Nat)
    (codeArg : Option String) (randomCode : String) :
    CaptchaQueue CR × Except PyError (Challenge CR) :=
  let cid := pyOrStr idArg (toString q.total_challenges)
  match q.generators.get? (choice % q.generators.length) with
  | none =>
    (q, Except.error (PyError.IndexError
      (some "Cannot choose from an empty sequence")))
  | some _g =>
    let ch : Challenge CR :=
      Challenge.init (some cid) uuid retries codeArg randomCode
    ({ q with queue := dictInsert q.queue cid ch
              total_challenges := q.total_challenges + 1 },
     Except.ok ch)

/-- `CaptchaQueue.get_challenge`: registry lookup, `NonexistingChallengeError`
when absent. -/
def CaptchaQueue.get_challenge (q : CaptchaQueue CR) (cid : String) :
    Except PyError (Challenge CR) :=
  match dictGet q.queue cid with
  | some ch => Except.ok ch
  | none =>
    Except.error (PyError.NonexistingChallengeError
      (some ("Challenge with id \x27" ++ cid
        ++ "\x27 does not exist. Have you used an int?")))

/-- `CaptchaQueue.delete_challenge`: look the challenge up (propagating
`NonexistingChallengeError`), call its `cancel` (whose `TypeError` on a
terminal challenge propagates, leaving the registry unchanged), then remove
the entry. -/
def CaptchaQueue.delete_challenge (q : CaptchaQueue CR) (cid : String) :
    CaptchaQueue CR × Except PyError Unit :=
  match CaptchaQueue.get_challenge q cid with
  | Except.error e => (q, Except.error e)
  | Except.ok ch =>
    match (Challenge.cancel ch).2 with
    | Except.error e => (q, Except.error e)
    | Except.ok _ =>
      ({ q with queue := dictRemove q.queue cid }, Except.ok ())

/-! ## Structural lemmas -/

/-- Cache well-formedness: when a captcha is cached, `__last_code` records
exactly the code it was built with. The code establishes both fields together
in `_create_captcha` and never writes them elsewhere. -/
def CacheWF (ch : Challenge CR) : Prop :=
  ∀ cap, ch.last_captcha_class = some cap → ch.last_code = some cap.code

theorem canBeModified_iff (ch : Challenge CR) :
    ch.canBeModified = true ↔
      ch.state = States.PENDING ∨ ch.state = States.WAITING := by
  unfold Challenge.canBeModified
  cases ch.state <;> simp

theorem setState_none (ch : Challenge CR) (s : States) :
    Challenge.setState ch s none = { ch with state := s } := by
  unfold Challenge.setState
  simp

theorem createCaptcha_eq (gen : String → CR) (ch : Challenge CR)
    (hwf : CacheWF ch) :
    (Challenge.createCaptcha gen ch).1.code = ch.code ∧
    (Challenge.createCaptcha gen ch).2
      = { ch with
          last_captcha_class := some (Challenge.createCaptcha gen ch).1,
          last_code := some ch.code } := by
  obtain ⟨c, i, ar, f, a, st, fr, lcc, lc⟩ := ch
  cases lcc with
  | none =>
    cases lc <;> simp [Challenge.createCaptcha]
  | some cap =>
    cases lc with
    | none =>
      exact absurd (hwf cap rfl) (by simp)
    | some lcval =>
      have hl : lcval = cap.code := by
        have h2 := hwf cap rfl
        simpa using h2
      by_cases hne : c ≠ lcval
      · simp [Challenge.createCaptcha, if_pos hne]
      · push_neg at hne
        subst hne
        simp [Challenge.createCaptcha, hl]

theorem createCaptcha_wf (gen : String → CR) (ch : Challenge CR)
    (hwf : CacheWF ch) : CacheWF (Challenge.createCaptcha gen ch).2 := by
  obtain ⟨h1, h2⟩ := createCaptcha_eq gen ch hwf
  intro cap hcap
  rw [h2] at hcap ⊢
  simp only [Option.some.injEq] at hcap ⊢
  rw [← hcap, h1]

theorem check_wrong_step (gen : String → CR) (ch : Challenge CR)
    (answer : String) (fc rs : Bool)
    (hwf : CacheWF ch)
    (hmod : ch.canBeModified = true)
    (hwrong : checkCode ch.code answer fc rs = false)
    (hlt : ch.failures + 1 < ch.allowed_retries) :
    (Challenge.check gen ch answer fc rs).2 = Except.ok false ∧
    (Challenge.check gen ch answer fc rs).1.failures = ch.failures + 1 ∧
    (Challenge.check gen ch answer fc rs).1.attempted_tries
      = ch.attempted_tries + 1 ∧
    (Challenge.check gen ch answer fc rs).1.state = ch.state ∧
    (Challenge.check gen ch answer fc rs).1.code = ch.code ∧
    (Challenge.check gen ch answer fc rs).1.allowed_retries
      = ch.allowed_retries ∧
    (Challenge.check gen ch answer fc rs).1.fail_reason = ch.fail_reason ∧
    CacheWF (Challenge.check gen ch answer fc rs).1 := by
  have hwf1 : CacheWF
      ({ ch with attempted_tries := ch.attempted_tries + 1 } : Challenge CR) :=
    fun cap h => hwf cap h
  obtain ⟨hc1, hc2⟩ :=
    createCaptcha_eq gen { ch with attempted_tries := ch.attempted_tries + 1 } hwf1
  have hwfr := createCaptcha_wf gen
    { ch with attempted_tries := ch.attempted_tries + 1 } hwf1
  have hchk : (Challenge.createCaptcha gen
      { ch with attempted_tries := ch.attempted_tries + 1 }).1.check answer fc rs
      = false := by
    show checkCode _ answer fc rs = false
    rw [hc1]
    exact hwrong
  simp only [Challenge.check, hmod, Bool.true_eq_false, if_false, hchk, if_true,
    hc2]
  rw [if_neg (show ¬ (ch.allowed_retries ≤ ch.failures + 1) by omega)]
  refine ⟨rfl, by simp, by simp, by simp, by simp, by simp, by simp, ?_⟩
  intro cap h
  rw [hc2] at hwfr
  exact hwfr cap h

theorem check_wrong_final (gen : String → CR) (ch : Challenge CR)
    (answer : String) (fc rs : Bool)
    (hwf : CacheWF ch)
    (hmod : ch.canBeModified = true)
    (hwrong : checkCode ch.code answer fc rs = false)
    (hge : ch.allowed_retries ≤ ch.failures + 1) :
    (Challenge.check gen ch answer fc rs).2
      = Except.error (PyError.TooManyRetriesError (some "Too many retries")) ∧
    (Challenge.check gen ch answer fc rs).1.state = States.FAILED ∧
    (Challenge.check gen ch answer fc rs).1.fail_reason
      = some "Too many retries" ∧
    (Challenge.check gen ch answer fc rs).1.failures = ch.failures + 1 ∧
    (Challenge.check gen ch answer fc rs).1.attempted_tries
      = ch.attempted_tries + 1 := by
  have hwf1 : CacheWF
      ({ ch with attempted_tries := ch.attempted_tries + 1 } : Challenge CR) :=
    fun cap h => hwf cap h
  obtain ⟨hc1, hc2⟩ :=
    createCaptcha_eq gen { ch with attempted_tries := ch.attempted_tries + 1 } hwf1
  have hchk : (Challenge.createCaptcha gen
      { ch with attempted_tries := ch.attempted_tries + 1 }).1.check answer fc rs
      = false := by
    show checkCode _ answer fc rs = false
    rw [hc1]
    exact hwrong
  simp only [Challenge.check, hmod, Bool.true_eq_false, if_false, hchk, if_true,
    hc2]
  rw [if_pos (show ch.allowed_retries ≤ ch.failures + 1 from hge)]
  simp only [Challenge.setState, Option.isSome_some, Option.map_some]
  rw [if_pos (by simp [FailReason.value])]
  exact ⟨rfl, rfl, rfl, rfl, rfl⟩

theorem check_correct_step (gen : String → CR) (ch : Challenge CR)
    (answer : String) (fc rs : Bool)
    (hwf : CacheWF ch)
    (hmod : ch.canBeModified = true)
    (hcorrect : checkCode ch.code answer fc rs = true) :
    (Challenge.check gen ch answer fc rs).2 = Except.ok true ∧
    (Challenge.check gen ch answer fc rs).1.state = States.COMPLETED ∧
    (Challenge.check gen ch answer fc rs).1.failures = ch.failures ∧
    (Challenge.check gen ch answer fc rs).1.attempted_tries
      = ch.attempted_tries + 1 ∧
    (Challenge.check gen ch answer fc rs).1.fail_reason = ch.fail_reason := by
  have hwf1 : CacheWF
      ({ ch with attempted_tries := ch.attempted_tries + 1 } : Challenge CR) :=
    fun cap h => hwf cap h
  obtain ⟨hc1, hc2⟩ :=
    createCaptcha_eq gen { ch with attempted_tries := ch.attempted_tries + 1 } hwf1
  have hchk : (Challenge.createCaptcha gen
      { ch with attempted_tries := ch.attempted_tries + 1 }).1.check answer fc rs
      = true := by
    show checkCode _ answer fc rs = true
    rw [hc1]
    exact hcorrect
  simp only [Challenge.check, hmod, Bool.true_eq_false, if_false, hchk,
    Bool.false_eq_true, hc2, setState_none]
  exact ⟨trivial, trivial, trivial, trivial, trivial⟩

/-- Iterated `check` with the same answer and flags, keeping only the state
(the boolean results of the intermediate calls are recovered separately). -/
def checkRun (gen : String → CR) (answer : String) (fc rs : Bool) :
    Nat → Challenge CR → Challenge CR
  | 0, ch => ch
  | n + 1, ch =>
    checkRun gen answer fc rs n (Challenge.check gen ch answer fc rs).1

/-- Invariant of iterating `check` with a wrong answer while strictly below the
retry limit: counters advance one per call, everything else is stable. -/
theorem checkRun_wrong (gen : String → CR) (answer : String) (fc rs : Bool)
    (k : Nat) :
    ∀ ch : Challenge CR, CacheWF ch → ch.canBeModified = true →
      checkCode ch.code answer fc rs = false →
      ch.failures + k < ch.allowed_retries →
      (checkRun gen answer fc rs k ch).failures = ch.failures + k ∧
      (checkRun gen answer fc rs k ch).attempted_tries
        = ch.attempted_tries + k ∧
      (checkRun gen answer fc rs k ch).state = ch.state ∧
      (checkRun gen answer fc rs k ch).code = ch.code ∧
      (checkRun gen answer fc rs k ch).allowed_retries = ch.allowed_retries ∧
      (checkRun gen answer fc rs k ch).canBeModified = true ∧
      CacheWF (checkRun gen answer fc rs k ch) := by
  induction k with
  | zero =>
    intro ch hwf hmod hwrong hlt
    exact ⟨rfl, rfl, rfl, rfl, rfl, hmod, hwf⟩
  | succ n ih =>
    intro ch hwf hmod hwrong hlt
    obtain ⟨r0, r1, r2, r3, r4, r5, r6, r7⟩ :=
      check_wrong_step gen ch answer fc rs hwf hmod hwrong (by omega)
    have hmod2 : (Challenge.check gen ch answer fc rs).1.canBeModified
        = true := by
      rw [canBeModified_iff, r3, ← canBeModified_iff]
      exact hmod
    obtain ⟨i1, i2, i3, i4, i5, i6, i7⟩ :=
      ih (Challenge.check gen ch answer fc rs).1 r7 hmod2
        (by rw [r4]; exact hwrong) (by rw [r1, r5]; omega)
    simp only [checkRun]
    refine ⟨?_, ?_, ?_, ?_, ?_, i6, i7⟩
    · rw [i1, r1]; omega
    · rw [i2, r2]; omega
    · rw [i3, r3]
    · rw [i4, r4]
    · rw [i5, r5]

/-- C1: for a cache-well-formed Challenge with `allowed_retries = N` (`N`
positive), `failures = 0` and state PENDING or WAITING, the first N-1 `check`
calls with a wrong answer each return `false` and leave the state unchanged
(hence non-terminal) with `failures` ending at N-1; the Nth wrong call pushes
`failures` to N, transitions to FAILED with reason TOO_MANY_RETRIES, and
raises `TooManyRetriesError`; `attempted_tries` grows by exactly one per
call. -/
theorem C1_monotonic_retries (gen : String → CR) (ch : Challenge CR)
    (answer : String) (fc rs : Bool) (N : Nat)
    (hwf : CacheWF ch)
    (hstate : ch.state = States.PENDING ∨ ch.state = States.WAITING)
    (hfail : ch.failures = 0)
    (hN : ch.allowed_retries = N)
    (hpos : 0 < N)
    (hwrong : checkCode ch.code answer fc rs = false) :
    (∀ j, j < N - 1 →
      (Challenge.check gen (checkRun gen answer fc rs j ch) answer fc rs).2
        = Except.ok false) ∧
    (checkRun gen answer fc rs (N - 1) ch).failures = N - 1 ∧
    ((checkRun gen answer fc rs (N - 1) ch).state = States.PENDING ∨
      (checkRun gen answer fc rs (N - 1) ch).state = States.WAITING) ∧
    (∀ j, j ≤ N - 1 →
      (checkRun gen answer fc rs j ch).attempted_tries
        = ch.attempted_tries + j) ∧
    (Challenge.check gen (checkRun gen answer fc rs (N - 1) ch) answer
        fc rs).1.failures = N ∧
    (Challenge.check gen (checkRun gen answer fc rs (N - 1) ch) answer
        fc rs).1.state = States.FAILED ∧
    (Challenge.check gen (checkRun gen answer fc rs (N - 1) ch) answer
        fc rs).1.fail_reason = some "Too many retries" ∧
    (Challenge.check gen (checkRun gen answer fc rs (N - 1) ch) answer
        fc rs).2
      = Except.error (PyError.TooManyRetriesError (some "Too many retries")) ∧
    (Challenge.check gen (checkRun gen answer fc rs (N - 1) ch) answer
        fc rs).1.attempted_tries = ch.attempted_tries + N := by
  have hmod : ch.canBeModified = true := (canBeModified_iff ch).2 hstate
  have hit : ∀ j, j < N →
      (checkRun gen answer fc rs j ch).failures = ch.failures + j ∧
      (checkRun gen answer fc rs j ch).attempted_tries
        = ch.attempted_tries + j ∧
      (checkRun gen answer fc rs j ch).state = ch.state ∧
      (checkRun gen answer fc rs j ch).code = ch.code ∧
      (checkRun gen answer fc rs j ch).allowed_retries = ch.allowed_retries ∧
      (checkRun gen answer fc rs j ch).canBeModified = true ∧
      CacheWF (checkRun gen answer fc rs j ch) := by
    intro j hj
    exact checkRun_wrong gen answer fc rs j ch hwf hmod hwrong (by omega)
  obtain ⟨e1, e2, e3, e4, e5, e6, e7⟩ := hit (N - 1) (by omega)
  refine ⟨?_, ?_, ?_, ?_, ?_⟩
  · intro j hj
    obtain ⟨i1, i2, i3, i4, i5, i6, i7⟩ := hit j (by omega)
    exact (check_wrong_step gen (checkRun gen answer fc rs j ch) answer fc rs
      i7 i6 (by rw [i4]; exact hwrong) (by rw [i1, i5, hfail, hN]; omega)).1
  · rw [e1, hfail]
    omega
  · rw [e3]
    exact hstate
  · intro j hj
    exact (hit j (by omega)).2.1
  · obtain ⟨f1, f2, f3, f4, f5⟩ :=
      check_wrong_final gen (checkRun gen answer fc rs (N - 1) ch) answer fc rs
        e7 e6 (by rw [e4]; exact hwrong) (by rw [e1, e5, hfail, hN]; omega)
    refine ⟨?_, f2, f3, f1, ?_⟩
    · rw [f4, e1, hfail]
      omega
    · rw [f5, e2]
      omega

/-- Witness for C1: a challenge with `allowed_retries = 2` and code "AB12";
the 2nd wrong `check` of "xx" fails the challenge. -/
theorem C1_monotonic_retries_witness :
    0 < 2 ∧
    (Challenge.check (fun _ => ()) (checkRun (fun _ => ()) "xx" false true
        (2 - 1) (Challenge.init none "U" (some 2) (some "AB12") "R")) "xx"
        false true).1.state = States.FAILED ∧
    (Challenge.check (fun _ => ()) (checkRun (fun _ => ()) "xx" false true
        (2 - 1) (Challenge.init none "U" (some 2) (some "AB12") "R")) "xx"
        false true).2
      = Except.error (PyError.TooManyRetriesError (some "Too many retries")) ∧
    (Challenge.check (fun _ => ()) (checkRun (fun _ => ()) "xx" false true
        (2 - 1) (Challenge.init none "U" (some 2) (some "AB12") "R")) "xx"
        false true).1.failures = 2 := by
  have hmain := C1_monotonic_retries (fun _ => ())
    (Challenge.init none "U" (some 2) (some "AB12") "R") "xx" false true 2
    (fun cap h => Option.noConfusion h) (Or.inl rfl) rfl (by decide)
    (by decide) (by decide)
  exact ⟨by decide, hmain.2.2.2.2.2.1, hmain.2.2.2.2.2.2.2.1,
    hmain.2.2.2.2.1⟩

/-- The non-cache fields of a challenge are untouched by `_create_captcha`,
with no well-formedness assumption. -/
theorem createCaptcha_fields (gen : String → CR) (ch : Challenge CR) :
    (Challenge.createCaptcha gen ch).2.code = ch.code ∧
    (Challenge.createCaptcha gen ch).2.challenge_id = ch.challenge_id ∧
    (Challenge.createCaptcha gen ch).2.allowed_retries = ch.allowed_retries ∧
    (Challenge.createCaptcha gen ch).2.failures = ch.failures ∧
    (Challenge.createCaptcha gen ch).2.attempted_tries = ch.attempted_tries ∧
    (Challenge.createCaptcha gen ch).2.state = ch.state ∧
    (Challenge.createCaptcha gen ch).2.fail_reason = ch.fail_reason := by
  obtain ⟨c, i, ar, f, a, st, fr, lcc, lc⟩ := ch
  cases lcc <;> cases lc <;> simp [Challenge.createCaptcha] <;> split <;> simp

/-- C2: on a terminal-state challenge (COMPLETED, FAILED, or FAILURE — the
spec's CANCELLED), `check`, `reload` and `cancel` raise `TypeError` (the
spec's NotModifiable) and return the challenge unchanged, and `begin` raises
the state-specific error carrying the stored fail reason, also leaving the
challenge unchanged. -/
theorem C2_terminal_state_guards (gen : String → CR) (ch : Challenge CR)
    (answer newCode : String) (fc rs it incf : Bool)
    (hterm : ch.state = States.COMPLETED ∨ ch.state = States.FAILED ∨
      ch.state = States.FAILURE) :
    Challenge.check gen ch answer fc rs
      = (ch, Except.error (PyError.TypeError
          (some "Challenge cannot be edited"))) ∧
    Challenge.reload gen ch newCode it incf
      = (ch, Except.error (PyError.TypeError
          (some "Challenge cannot be edited"))) ∧
    Challenge.cancel ch
      = (ch, Except.error (PyError.TypeError
          (some "Challenge cannot be edited"))) ∧
    (ch.state = States.COMPLETED →
      Challenge.begin gen ch
        = (ch, Except.error (PyError.AlreadyCompletedError
            (some "Challenge already completed")))) ∧
    (ch.state = States.FAILED →
      Challenge.begin gen ch
        = (ch, Except.error (PyError.TooManyRetriesError
            (some (pyOrStr ch.fail_reason "Failed (No failed reason)"))))) ∧
    (ch.state = States.FAILURE →
      Challenge.begin gen ch
        = (ch, Except.error (PyError.ChallengeCompletionError
            (some (pyOrStr ch.fail_reason "Failure (No failure reason)"))))) := by
  have hmod : ch.canBeModified = false := by
    unfold Challenge.canBeModified
    rcases hterm with h | h | h <;> rw [h]
  refine ⟨?_, ?_, ?_, ?_, ?_, ?_⟩
  · simp [Challenge.check, hmod]
  · simp [Challenge.reload, hmod]
  · simp [Challenge.cancel, hmod]
  · intro h
    simp [Challenge.begin, h]
  · intro h
    simp [Challenge.begin, h]
  · intro h
    simp [Challenge.begin, h]

/-- Witness for C2: a cancelled challenge rejects `cancel` with `TypeError`
and `begin` reports the stored cancellation reason. -/
theorem C2_terminal_state_guards_witness :
    Challenge.cancel
      (⟨"AB", "id", 3, 0, 0, States.FAILURE,
        some "Challenge has been cancelled", none, none⟩ : Challenge Unit)
      = (⟨"AB", "id", 3, 0, 0, States.FAILURE,
          some "Challenge has been cancelled", none, none⟩,
         Except.error (PyError.TypeError
           (some "Challenge cannot be edited"))) ∧
    Challenge.begin (fun _ => ())
      (⟨"AB", "id", 3, 0, 0, States.FAILURE,
        some "Challenge has been cancelled", none, none⟩ : Challenge Unit)
      = (⟨"AB", "id", 3, 0, 0, States.FAILURE,
          some "Challenge has been cancelled", none, none⟩,
         Except.error (PyError.ChallengeCompletionError
           (some "Challenge has been cancelled"))) := by
  have hmain := C2_terminal_state_guards (fun _ => ())
    (⟨"AB", "id", 3, 0, 0, States.FAILURE,
      some "Challenge has been cancelled", none, none⟩ : Challenge Unit)
    "a" "B" false true false false (Or.inr (Or.inr rfl))
  exact ⟨hmain.2.2.1, hmain.2.2.2.2.2 rfl⟩

/-- C10: from WAITING, `reload` increments `failures` only when both
`increase_attempted_tries` and `increase_failures` are set; with the first
flag false and the second true, both counters stay unchanged. -/
theorem C10_reload_failure_flags (gen : String → CR) (ch : Challenge CR)
    (newCode : String) (hW : ch.state = States.WAITING) :
    (Challenge.reload gen ch newCode false true).1.attempted_tries
      = ch.attempted_tries ∧
    (Challenge.reload gen ch newCode false true).1.failures = ch.failures ∧
    (∀ it incf : Bool,
      (Challenge.reload gen ch newCode it incf).1.failures
        = if it && incf then ch.failures + 1 else ch.failures) := by
  have hmod : ch.canBeModified = true :=
    (canBeModified_iff ch).2 (Or.inr hW)
  have hP : ¬ (ch.state = States.PENDING) := by
    rw [hW]
    intro h
    exact States.noConfusion h
  refine ⟨?_, ?_, ?_⟩
  · simp only [Challenge.reload, hmod, Bool.true_eq_false, if_false,
      if_neg hP, Bool.false_eq_true]
    exact (createCaptcha_fields gen _).2.2.2.2.1
  · simp only [Challenge.reload, hmod, Bool.true_eq_false, if_false,
      if_neg hP, Bool.false_eq_true]
    exact (createCaptcha_fields gen _).2.2.2.1
  · intro it incf
    cases it <;> cases incf <;>
      simp only [Challenge.reload, hmod, Bool.true_eq_false, if_false,
        if_neg hP, Bool.false_eq_true, Bool.true_and, Bool.false_and,
        Bool.and_false, Bool.and_true, if_true]
    all_goals exact (createCaptcha_fields gen _).2.2.2.1

/-- Witness for C10: a concrete WAITING challenge reloaded with
`increase_attempted_tries = false, increase_failures = true` keeps both
counters. -/
theorem C10_reload_failure_flags_witness :
    (Challenge.reload (fun _ => ())
      (⟨"AB", "id", 3, 1, 2, States.WAITING, none, none, none⟩ :
        Challenge Unit) "ZZ" false true).1.attempted_tries = 2 ∧
    (Challenge.reload (fun _ => ())
      (⟨"AB", "id", 3, 1, 2, States.WAITING, none, none, none⟩ :
        Challenge Unit) "ZZ" false true).1.failures = 1 := by
  have hmain := C10_reload_failure_flags (fun _ => ())
    (⟨"AB", "id", 3, 1, 2, States.WAITING, none, none, none⟩ : Challenge Unit)
    "ZZ" rfl
  exact ⟨hmain.1, hmain.2.1⟩

/-- The check predicate as the spec's words state it (claim C4): space removal
applied to BOTH candidate and code when `remove_spaces`, then case folding of
both sides when not `force_casing`. Written to be compared with
`Captcha.check`, which strips spaces from the candidate only. -/
def specCheck (code candidate : String)
    (force_casing : Bool) (remove_spaces : Bool) : Bool :=
  let s1 := if remove_spaces then stripSpaces candidate else candidate
  let c1 := if remove_spaces then stripSpaces code else code
  let s2 := if force_casing then s1 else lowerStr s1
  let c2 := if force_casing then c1 else lowerStr c1
  c2 == s2

/-- Counterexample for C4: with stored code "a b" and candidate "ab", the
spec's both-sides space removal would accept, but `Captcha.check` (which
strips the candidate only) rejects. -/
theorem C4_counterexample :
    Captcha.check (⟨"a b", ()⟩ : Captcha Unit) "ab" false true = false ∧
    specCheck "a b" "ab" false true = true := by decide

/-- C4 (amended): `check` returns true iff the candidate, after space removal
(when `remove_spaces`) and then case folding (when not `force_casing`), equals
the stored code after case folding only — spaces in the stored code are never
removed. -/
theorem C4_check_characterization (cap : Captcha CR) (s : String)
    (fc rs : Bool) :
    cap.check s fc rs = true ↔
      (if fc then (if rs then stripSpaces s else s)
        else lowerStr (if rs then stripSpaces s else s))
      = (if fc then cap.code else lowerStr cap.code) := by
  unfold Captcha.check checkCode
  cases fc <;> cases rs <;> simp [beq_iff_eq] <;> exact eq_comm

/-- Every character of a string survives `stripSpaces` when the string holds
no space. -/
theorem stripSpaces_eq_self (c : String) (h : ' ' ∉ c.data) :
    stripSpaces c = c := by
  unfold stripSpaces
  have : c.data.filter (fun ch => ch ≠ ' ') = c.data := by
    rw [List.filter_eq_self]
    intro a ha
    have hne : a ≠ ' ' := fun he => h (he ▸ ha)
    simp [hne]
  rw [this]

/-- Checking a space-free code against itself with default flags succeeds. -/
theorem checkCode_self (c : String) (h : ' ' ∉ c.data) :
    checkCode c c false true = true := by
  unfold checkCode
  simp only [if_true, if_false, stripSpaces_eq_self c h]
  exact beq_self_eq_true _

/-- `begin` from PENDING: moves to WAITING, renders, and touches nothing
else. -/
theorem begin_pending_spec (gen : String → CR) (ch : Challenge CR)
    (hP : ch.state = States.PENDING) :
    (Challenge.begin gen ch).1.state = States.WAITING ∧
    (Challenge.begin gen ch).1.code = ch.code ∧
    (Challenge.begin gen ch).1.failures = ch.failures ∧
    (Challenge.begin gen ch).1.attempted_tries = ch.attempted_tries ∧
    (Challenge.begin gen ch).1.allowed_retries = ch.allowed_retries ∧
    (Challenge.begin gen ch).1.fail_reason = ch.fail_reason ∧
    (CacheWF ch → CacheWF (Challenge.begin gen ch).1) := by
  have hne : ∀ s : States, s ≠ States.PENDING →
      ¬ (ch.state = s) := fun s hs h => hs (h ▸ hP ▸ rfl)
  simp only [Challenge.begin, hP, setState_none]
  refine ⟨?_, ?_, ?_, ?_, ?_, ?_, ?_⟩
  · exact (createCaptcha_fields gen _).2.2.2.2.2.1
  · exact (createCaptcha_fields gen _).1
  · exact (createCaptcha_fields gen _).2.2.2.1
  · exact (createCaptcha_fields gen _).2.2.2.2.1
  · exact (createCaptcha_fields gen _).2.2.1
  · exact (createCaptcha_fields gen _).2.2.2.2.2.2
  · intro hwf
    exact createCaptcha_wf gen _ (fun cap h => hwf cap h)

/-- Nonempty explicit codes survive the `code or random_code(...)` default. -/
theorem pyOrStr_some_ne (v d : String) (h : v ≠ "") : pyOrStr (some v) d = v := by
  simp [pyOrStr, h]

/-- C5 (amended): for every NONEMPTY explicit code containing NO space
character, constructing a challenge with that code, then `begin`, then
`check(code)` with default flags returns true and lands in COMPLETED. (The
two excluded cases break the round trip: an empty code is falsy in Python, so
a random code replaces it; a code holding a space fails because `check`
removes spaces from the candidate only.) -/
theorem C5_roundtrip (gen : String → CR) (idArg : Option String)
    (uuid : String) (retriesArg : Option Nat) (c randomCode : String)
    (hne : c ≠ "") (hns : ' ' ∉ c.data) :
    (Challenge.check gen (Challenge.begin gen
        (Challenge.init idArg uuid retriesArg (some c) randomCode)).1
        c false true).2 = Except.ok true ∧
    (Challenge.check gen (Challenge.begin gen
        (Challenge.init idArg uuid retriesArg (some c) randomCode)).1
        c false true).1.state = States.COMPLETED := by
  have hcode0 :
      (Challenge.init idArg uuid retriesArg (some c) randomCode
        : Challenge CR).code = c := pyOrStr_some_ne c randomCode hne
  obtain ⟨b1, b2, _b3, _b4, _b5, _b6, b7⟩ := begin_pending_spec gen
    (Challenge.init idArg uuid retriesArg (some c) randomCode
      : Challenge CR) rfl
  have hwfB : CacheWF (Challenge.begin gen
      (Challenge.init idArg uuid retriesArg (some c) randomCode
        : Challenge CR)).1 :=
    b7 (fun cap h => Option.noConfusion h)
  have hmodB : (Challenge.begin gen
      (Challenge.init idArg uuid retriesArg (some c) randomCode
        : Challenge CR)).1.canBeModified = true :=
    (canBeModified_iff _).2 (Or.inr b1)
  have hcorrect : checkCode (Challenge.begin gen
      (Challenge.init idArg uuid retriesArg (some c) randomCode
        : Challenge CR)).1.code c false true = true := by
    rw [b2, hcode0]
    exact checkCode_self c hns
  obtain ⟨k1, k2, _k3, _k4, _k5⟩ := check_correct_step gen _ c false true
    hwfB hmodB hcorrect
  exact ⟨k1, k2⟩

/-- Counterexample for C5 as stated: the explicit code "a b" (which contains a
space) yields `check(code) = false` and the challenge stays WAITING, because
`check` strips spaces from the candidate but not from the stored code. -/
theorem C5_counterexample :
    (Challenge.check (fun _ => ()) (Challenge.begin (fun _ => ())
        (Challenge.init none "U" none (some "a b") "R")).1
        "a b" false true).2 = Except.ok false ∧
    (Challenge.check (fun _ => ()) (Challenge.begin (fun _ => ())
        (Challenge.init none "U" none (some "a b") "R")).1
        "a b" false true).1.state = States.WAITING := by decide

/-- Witness for C5 (amended): the space-free code "AB12". -/
theorem C5_roundtrip_witness :
    ("AB12" ≠ "" ∧ ' ' ∉ "AB12".data) ∧
    (Challenge.check (fun _ => ()) (Challenge.begin (fun _ => ())
        (Challenge.init none "U" none (some "AB12") "R")).1
        "AB12" false true).2 = Except.ok true ∧
    (Challenge.check (fun _ => ()) (Challenge.begin (fun _ => ())
        (Challenge.init none "U" none (some "AB12") "R")).1
        "AB12" false true).1.state = States.COMPLETED :=
  ⟨by decide,
   C5_roundtrip (fun _ => ()) none "U" none "AB12" "R" (by decide) (by decide)⟩

/-- C7: the code accepts an EMPTY generator collection at construction — no
`InvalidConfiguration`/`ValueError` is raised (contradicting the class
docstring); the failure surfaces only later, as `random.choice([])` raising
`IndexError` inside `create_challenge`. -/
theorem C7_empty_generators_accepted :
    (CaptchaQueue.init ([] : List (String → Unit)) none).generators = [] ∧
    (CaptchaQueue.init ([] : List (String → Unit)) none).total_challenges
      = 0 ∧
    (CaptchaQueue.create_challenge
        (CaptchaQueue.init ([] : List (String → Unit)) none)
        0 none "U" none none "R").2
      = Except.error (PyError.IndexError
          (some "Cannot choose from an empty sequence")) :=
  ⟨rfl, rfl, by decide⟩

/-- `create_challenge` on a queue with at least one generator: returns the
challenge built from the (possibly synthesized) identifier, stores it, keeps
the generators, and increments the creation counter. -/
theorem create_challenge_success (q : CaptchaQueue CR)
    (hne : q.generators ≠ []) (choice : Nat) (idArg : Option String)
    (uuid : String) (retries : Option Nat) (codeArg : Option String)
    (randomCode : String) :
    (CaptchaQueue.create_challenge q choice idArg uuid retries codeArg
        randomCode).2
      = Except.ok (Challenge.init
          (some (pyOrStr idArg (toString q.total_challenges))) uuid retries
          codeArg randomCode) ∧
    (CaptchaQueue.create_challenge q choice idArg uuid retries codeArg
        randomCode).1.total_challenges = q.total_challenges + 1 ∧
    (CaptchaQueue.create_challenge q choice idArg uuid retries codeArg
        randomCode).1.generators = q.generators ∧
    (CaptchaQueue.create_challenge q choice idArg uuid retries codeArg
        randomCode).1.queue
      = dictInsert q.queue (pyOrStr idArg (toString q.total_challenges))
          (Challenge.init
            (some (pyOrStr idArg (toString q.total_challenges))) uuid retries
            codeArg randomCode) := by
  have hlen : 0 < q.generators.length := List.length_pos.mpr hne
  have hlt : choice % q.generators.length < q.generators.length :=
    Nat.mod_lt _ hlen
  unfold CaptchaQueue.create_challenge
  rw [List.get?_eq_get hlt]
  exact ⟨rfl, rfl, rfl, rfl⟩

/-- C8: on a fresh queue, three identifier-less `create_challenge` calls
yield challenges with identifiers "0", "1", "2" in order; and EVERY
`create_challenge` call (explicit identifier or not) increments the private
creation counter, so it tracks total creations, not registry size. -/
theorem C8_queue_identifiers (q : CaptchaQueue CR)
    (hne : q.generators ≠ []) (hq : q.total_challenges = 0)
    (c1 c2 c3 : Nat) (u1 u2 u3 r1 r2 r3 : String) :
    (CaptchaQueue.create_challenge q c1 none u1 none none r1).2.map
      Challenge.challenge_id = Except.ok "0" ∧
    (CaptchaQueue.create_challenge
        (CaptchaQueue.create_challenge q c1 none u1 none none r1).1
        c2 none u2 none none r2).2.map
      Challenge.challenge_id = Except.ok "1" ∧
    (CaptchaQueue.create_challenge (CaptchaQueue.create_challenge
        (CaptchaQueue.create_challenge q c1 none u1 none none r1).1
        c2 none u2 none none r2).1 c3 none u3 none none r3).2.map
      Challenge.challenge_id = Except.ok "2" ∧
    (∀ (q2 : CaptchaQueue CR), q2.generators ≠ [] →
      ∀ (choice : Nat) (idArg : Option String) (uuid : String)
        (retries : Option Nat) (codeArg : Option String) (rand : String),
      (CaptchaQueue.create_challenge q2 choice idArg uuid retries codeArg
          rand).1.total_challenges = q2.total_challenges + 1) := by
  obtain ⟨s1, t1, g1, _⟩ := create_challenge_success q hne c1 none u1 none none r1
  have hne1 : (CaptchaQueue.create_challenge q c1 none u1 none none r1).1.generators ≠ [] := by
    rw [g1]
    exact hne
  obtain ⟨s2, t2, g2, _⟩ := create_challenge_success
    (CaptchaQueue.create_challenge q c1 none u1 none none r1).1 hne1
    c2 none u2 none none r2
  have hne2 : (CaptchaQueue.create_challenge
      (CaptchaQueue.create_challenge q c1 none u1 none none r1).1
      c2 none u2 none none r2).1.generators ≠ [] := by
    rw [g2]
    exact hne1
  obtain ⟨s3, _t3, _g3, _⟩ := create_challenge_success
    (CaptchaQueue.create_challenge
      (CaptchaQueue.create_challenge q c1 none u1 none none r1).1
      c2 none u2 none none r2).1 hne2 c3 none u3 none none r3
  have ht1 : (CaptchaQueue.create_challenge q c1 none u1 none none r1).1.total_challenges = 1 := by
    rw [t1, hq]
  have ht2 : (CaptchaQueue.create_challenge
      (CaptchaQueue.create_challenge q c1 none u1 none none r1).1
      c2 none u2 none none r2).1.total_challenges = 2 := by
    rw [t2, ht1]
  refine ⟨?_, ?_, ?_, ?_⟩
  · rw [s1, hq]
    simp only [Except.map, Challenge.init, pyOrStr]
    rw [if_neg (show ¬ (toString (0 : Nat) = "") by decide)]
    decide
  · rw [s2, ht1]
    simp only [Except.map, Challenge.init, pyOrStr]
    rw [if_neg (show ¬ (toString (1 : Nat) = "") by decide)]
    decide
  · rw [s3, ht2]
    simp only [Except.map, Challenge.init, pyOrStr]
    rw [if_neg (show ¬ (toString (2 : Nat) = "") by decide)]
    decide
  · intro q2 hne2 choice idArg uuid retries codeArg rand
    exact (create_challenge_success q2 hne2 choice idArg uuid retries codeArg
      rand).2.1

/-- Witness for C8: a one-generator queue; the first two identifier-less
creations get ids "0" and "1", and a creation with explicit id "xyz" still
bumps the counter. -/
theorem C8_queue_identifiers_witness :
    (CaptchaQueue.create_challenge
        (CaptchaQueue.init [fun _ => ()] none) 0 none "U" none none "R").2.map
      Challenge.challenge_id = Except.ok "0" ∧
    (CaptchaQueue.create_challenge (CaptchaQueue.create_challenge
        (CaptchaQueue.init [fun _ => ()] none) 0 none "U" none none
        "R").1 0 none "U" none none "R").2.map
      Challenge.challenge_id = Except.ok "1" ∧
    (CaptchaQueue.create_challenge
        (CaptchaQueue.init [fun _ => ()] none) 5 (some "xyz") "U" none none
        "R").1.total_challenges = 1 := by
  have hmain := C8_queue_identifiers
    (CaptchaQueue.init ([fun _ => ()] : List (String → Unit)) none)
    (List.cons_ne_nil _ _) rfl 0 0 0 "U" "U" "U" "R" "R" "R"
  refine ⟨hmain.1, hmain.2.1, ?_⟩
  have hcnt := hmain.2.2.2 (CaptchaQueue.init [fun _ => ()] none)
    (List.cons_ne_nil _ _) 5 (some "xyz") "U" none none "R"
  rw [hcnt]
  rfl

/-- C3 evidence: `delete_challenge` on an id whose challenge is already
terminal (here COMPLETED) propagates the `TypeError` from `Challenge.cancel`
and leaves the registry entry in place — the prescribed no-op cancellation
and removal do not happen. The absent-id path does fail with
`NonexistingChallengeError` as claimed, and the non-terminal path cancels and
removes as claimed. -/
theorem C3_delete_terminal_challenge :
    (CaptchaQueue.delete_challenge
        (⟨[fun _ => ()],
          [("0", ⟨"AB", "0", 3, 0, 1, States.COMPLETED, none, none, none⟩)],
          1⟩ : CaptchaQueue Unit) "0").2
      = Except.error (PyError.TypeError (some "Challenge cannot be edited")) ∧
    (CaptchaQueue.delete_challenge
        (⟨[fun _ => ()],
          [("0", ⟨"AB", "0", 3, 0, 1, States.COMPLETED, none, none, none⟩)],
          1⟩ : CaptchaQueue Unit) "0").1.queue
      = [("0", ⟨"AB", "0", 3, 0, 1, States.COMPLETED, none, none, none⟩)] ∧
    (CaptchaQueue.delete_challenge
        (⟨[fun _ => ()],
          [("0", ⟨"AB", "0", 3, 0, 1, States.COMPLETED, none, none, none⟩)],
          1⟩ : CaptchaQueue Unit) "9").2
      = Except.error (PyError.NonexistingChallengeError
          (some "Challenge with id \x279\x27 does not exist. Have you used an int?")) ∧
    (CaptchaQueue.delete_challenge
        (⟨[fun _ => ()],
          [("1", ⟨"AB", "1", 3, 0, 1, States.WAITING, none, none, none⟩)],
          2⟩ : CaptchaQueue Unit) "1").2 = Except.ok () ∧
    (CaptchaQueue.delete_challenge
        (⟨[fun _ => ()],
          [("1", ⟨"AB", "1", 3, 0, 1, States.WAITING, none, none, none⟩)],
          2⟩ : CaptchaQueue Unit) "1").1.queue = [] := by
  refine ⟨by decide, by decide, ?_, by decide, by decide⟩
  decide

/-- Cache coherence: the cached captcha, when present, was built from the
challenge's CURRENT code (and `__last_code` records that code). -/
def CacheCurrent (gen : String → CR) (ch : Challenge CR) : Prop :=
  ∀ cap, ch.last_captcha_class = some cap →
    cap.code = ch.code ∧ cap.captcha_object = gen ch.code ∧
    ch.last_code = some ch.code

/-- Weakening of coherence that survives a code reassignment: the cached
captcha matches `__last_code` and was rendered from its own code. -/
theorem cacheCurrent_sound (gen : String → CR) (ch : Challenge CR)
    (h : CacheCurrent gen ch) :
    ∀ cap, ch.last_captcha_class = some cap →
      ch.last_code = some cap.code ∧ cap.captcha_object = gen cap.code := by
  intro cap hc
  obtain ⟨h1, h2, h3⟩ := h cap hc
  exact ⟨by rw [h1]; exact h3, by rw [h1]; exact h2⟩

theorem cacheCurrent_wf (gen : String → CR) (ch : Challenge CR)
    (h : CacheCurrent gen ch) : CacheWF ch := by
  intro cap hc
  obtain ⟨h1, _h2, h3⟩ := h cap hc
  rw [h1]
  exact h3

/-- The rendered captcha returned by `_create_captcha` was produced by the
generator from its own stored code (sound inputs). -/
theorem createCaptcha_fst_obj (gen : String → CR) (ch : Challenge CR)
    (h : ∀ cap, ch.last_captcha_class = some cap →
      ch.last_code = some cap.code ∧ cap.captcha_object = gen cap.code) :
    (Challenge.createCaptcha gen ch).1.captcha_object
      = gen (Challenge.createCaptcha gen ch).1.code := by
  obtain ⟨c, i, ar, f, a, st, fr, lcc, lc⟩ := ch
  cases lcc with
  | none =>
    cases lc <;> rfl
  | some cap0 =>
    cases lc with
    | none => rfl
    | some lc0 =>
      by_cases hne : c ≠ lc0
      · simp only [Challenge.createCaptcha, if_pos hne]
      · simp only [Challenge.createCaptcha, if_neg (not_not_intro
          (by push_neg at hne; exact hne))]
        exact (h cap0 rfl).2

/-- `_create_captcha` restores cache coherence from mere soundness — in
particular right after `reload` replaced the code. -/
theorem createCaptcha_cacheCurrent (gen : String → CR) (ch : Challenge CR)
    (h : ∀ cap, ch.last_captcha_class = some cap →
      ch.last_code = some cap.code ∧ cap.captcha_object = gen cap.code) :
    CacheCurrent gen (Challenge.createCaptcha gen ch).2 := by
  have hwf : CacheWF ch := fun cap hc => (h cap hc).1
  obtain ⟨he1, he2⟩ := createCaptcha_eq gen ch hwf
  have hobj := createCaptcha_fst_obj gen ch h
  intro cap hcap
  rw [he2] at hcap
  simp only [Option.some.injEq] at hcap
  subst hcap
  rw [he2]
  exact ⟨he1, by rw [hobj, he1], rfl⟩

/-- Field accounting for `_set_state`. -/
theorem setState_fields (ch : Challenge CR) (s : States)
    (r : Option FailReason) :
    (Challenge.setState ch s r).last_captcha_class = ch.last_captcha_class ∧
    (Challenge.setState ch s r).last_code = ch.last_code ∧
    (Challenge.setState ch s r).code = ch.code ∧
    (Challenge.setState ch s r).state = s ∧
    (Challenge.setState ch s r).failures = ch.failures ∧
    (Challenge.setState ch s r).attempted_tries = ch.attempted_tries ∧
    (Challenge.setState ch s r).allowed_retries = ch.allowed_retries := by
  by_cases hcond : ((s = States.FAILED ∨ s = States.FAILURE) ∧
      r.isSome = true)
  · have heq : Challenge.setState ch s r
        = { ch with
            state := s
            fail_reason := Option.map FailReason.value r } := by
      unfold Challenge.setState
      exact if_pos hcond
    rw [heq]
    exact ⟨rfl, rfl, rfl, rfl, rfl, rfl, rfl⟩
  · have heq : Challenge.setState ch s r = { ch with state := s } := by
      unfold Challenge.setState
      exact if_neg hcond
    rw [heq]
    exact ⟨rfl, rfl, rfl, rfl, rfl, rfl, rfl⟩

theorem cacheCurrent_setState (gen : String → CR) (ch : Challenge CR)
    (s : States) (r : Option FailReason) (h : CacheCurrent gen ch) :
    CacheCurrent gen (Challenge.setState ch s r) := by
  intro cap hc
  rw [(setState_fields ch s r).1] at hc
  obtain ⟨h1, h2, h3⟩ := h cap hc
  rw [(setState_fields ch s r).2.2.1, (setState_fields ch s r).2.1]
  exact ⟨h1, h2, h3⟩

theorem begin_cacheCurrent (gen : String → CR) (ch : Challenge CR)
    (h : CacheCurrent gen ch) : CacheCurrent gen (Challenge.begin gen ch).1 := by
  simp only [Challenge.begin]
  split
  · exact h
  split
  · exact h
  split
  · exact h
  split
  · exact h
  show CacheCurrent gen (Challenge.createCaptcha gen
    (Challenge.setState ch States.WAITING none)).2
  rw [setState_none]
  exact createCaptcha_cacheCurrent gen _
    (fun cap hc => cacheCurrent_sound gen ch h cap hc)

theorem check_cacheCurrent (gen : String → CR) (ch : Challenge CR)
    (answer : String) (fc rs : Bool) (h : CacheCurrent gen ch) :
    CacheCurrent gen (Challenge.check gen ch answer fc rs).1 := by
  simp only [Challenge.check]
  split
  · exact h
  have hcur : CacheCurrent gen (Challenge.createCaptcha gen
      { ch with attempted_tries := ch.attempted_tries + 1 }).2 :=
    createCaptcha_cacheCurrent gen _
      (fun cap hc => cacheCurrent_sound gen ch h cap hc)
  split
  · split
    · exact cacheCurrent_setState gen _ _ _ (fun cap hc => hcur cap hc)
    · exact fun cap hc => hcur cap hc
  · exact cacheCurrent_setState gen _ _ _ hcur

theorem reload_cacheCurrent (gen : String → CR) (ch : Challenge CR)
    (newCode : String) (it incf : Bool) (h : CacheCurrent gen ch) :
    CacheCurrent gen (Challenge.reload gen ch newCode it incf).1 := by
  cases it <;> cases incf <;>
    · simp only [Challenge.reload]
      split
      · exact h
      split
      · exact h
      exact createCaptcha_cacheCurrent gen _
        (fun cap hc => cacheCurrent_sound gen ch h cap hc)

theorem cancel_cacheCurrent (gen : String → CR) (ch : Challenge CR)
    (h : CacheCurrent gen ch) : CacheCurrent gen (Challenge.cancel ch).1 := by
  simp only [Challenge.cancel]
  split
  · exact h
  · exact cacheCurrent_setState gen _ _ _ h

/-- The challenges reachable through the public API: a fresh `__init__`
followed by any sequence of `begin` / `check` / `reload` / `cancel` calls
(keeping the post-state whether the call returned or raised). -/
inductive Reach (gen : String → CR) : Challenge CR → Prop where
  | init (idArg : Option String) (uuid : String) (retriesArg : Option Nat)
      (codeArg : Option String) (randomCode : String) :
      Reach gen (Challenge.init idArg uuid retriesArg codeArg randomCode)
  | step_begin {ch : Challenge CR} :
      Reach gen ch → Reach gen (Challenge.begin gen ch).1
  | step_check {ch : Challenge CR} (answer : String) (fc rs : Bool) :
      Reach gen ch → Reach gen (Challenge.check gen ch answer fc rs).1
  | step_reload {ch : Challenge CR} (newCode : String) (it incf : Bool) :
      Reach gen ch → Reach gen (Challenge.reload gen ch newCode it incf).1
  | step_cancel {ch : Challenge CR} :
      Reach gen ch → Reach gen (Challenge.cancel ch).1

theorem reach_cacheCurrent (gen : String → CR) (ch : Challenge CR)
    (h : Reach gen ch) : CacheCurrent gen ch := by
  induction h with
  | init idArg uuid retriesArg codeArg randomCode =>
    exact fun cap hc => Option.noConfusion hc
  | step_begin _hr ih => exact begin_cacheCurrent gen _ ih
  | step_check answer fc rs _hr ih => exact check_cacheCurrent gen _ answer fc rs ih
  | step_reload newCode it incf _hr ih =>
    exact reload_cacheCurrent gen _ newCode it incf ih
  | step_cancel _hr ih => exact cancel_cacheCurrent gen _ ih

/-- `_create_captcha` on a sound cache leaves the code in place and caches a
captcha rendered by the generator from that very code. -/
theorem createCaptcha_fresh (gen : String → CR) (ch2 : Challenge CR)
    (hsound : ∀ cap, ch2.last_captcha_class = some cap →
      ch2.last_code = some cap.code ∧ cap.captcha_object = gen cap.code) :
    (Challenge.createCaptcha gen ch2).2.code = ch2.code ∧
    (Challenge.createCaptcha gen ch2).2.last_captcha_class
      = some ⟨ch2.code, gen ch2.code⟩ := by
  have hwf : CacheWF ch2 := fun cap hc => (hsound cap hc).1
  obtain ⟨he1, he2⟩ := createCaptcha_eq gen ch2 hwf
  have hobj := createCaptcha_fst_obj gen ch2 hsound
  have h2 : (Challenge.createCaptcha gen ch2).1.captcha_object
      = gen ch2.code := by
    rw [hobj, he1]
  constructor
  · rw [he2]
  · rw [he2]
    simp only [Option.some.injEq]
    calc (Challenge.createCaptcha gen ch2).1
        = ⟨(Challenge.createCaptcha gen ch2).1.code,
           (Challenge.createCaptcha gen ch2).1.captcha_object⟩ := rfl
      _ = ⟨ch2.code, gen ch2.code⟩ := by rw [he1, h2]

/-- C6: on every reachable challenge the cached captcha, when present, was
built from the exact code currently held (both its recorded code and its
rendered object match, and `__last_code` agrees); moreover a successful
`reload` from WAITING ends with the fresh random code installed and the cache
rebuilt from that fresh code. -/
theorem C6_cache_coherence (gen : String → CR) (ch : Challenge CR)
    (h : Reach gen ch) :
    (∀ cap, ch.last_captcha_class = some cap →
      cap.code = ch.code ∧ cap.captcha_object = gen ch.code ∧
      ch.last_code = some ch.code) ∧
    (∀ (newCode : String) (it incf : Bool), ch.state = States.WAITING →
      (Challenge.reload gen ch newCode it incf).1.code = newCode ∧
      (Challenge.reload gen ch newCode it incf).1.last_captcha_class
        = some ⟨newCode, gen newCode⟩) := by
  have hcc := reach_cacheCurrent gen ch h
  refine ⟨hcc, ?_⟩
  intro newCode it incf hW
  have hmod : ch.canBeModified = true := (canBeModified_iff ch).2 (Or.inr hW)
  have hP : ¬ (ch.state = States.PENDING) := by
    rw [hW]
    exact fun hx => States.noConfusion hx
  have hsound := cacheCurrent_sound gen ch hcc
  cases it <;> cases incf <;>
    · simp only [Challenge.reload, hmod, Bool.true_eq_false, if_false,
        if_neg hP]
      exact createCaptcha_fresh gen _ (fun cap hc => hsound cap hc)

/-- Witness for C6: after `begin`, the cache holds the captcha for "AB12";
after a `reload` to "ZZ99", the cache holds the captcha for "ZZ99". -/
theorem C6_cache_coherence_witness :
    ((⟨"AB12", ()⟩ : Captcha Unit).code
        = (Challenge.begin (fun _ => ())
            (Challenge.init none "U" none (some "AB12") "R")).1.code ∧
      (⟨"AB12", ()⟩ : Captcha Unit).captcha_object
        = (fun _ => ()) (Challenge.begin (fun _ => ())
            (Challenge.init none "U" none (some "AB12") "R")).1.code ∧
      (Challenge.begin (fun _ => ())
          (Challenge.init none "U" none (some "AB12") "R")).1.last_code
        = some (Challenge.begin (fun _ => ())
            (Challenge.init none "U" none (some "AB12") "R")).1.code) ∧
    (Challenge.reload (fun _ => ()) (Challenge.begin (fun _ => ())
        (Challenge.init none "U" none (some "AB12") "R")).1 "ZZ99" true
        false).1.last_captcha_class = some ⟨"ZZ99", ()⟩ := by
  have hmain := C6_cache_coherence (fun _ => ())
    (Challenge.begin (fun _ => ())
      (Challenge.init none "U" none (some "AB12") "R")).1
    (Reach.step_begin (Reach.init none "U" none (some "AB12") "R"))
  exact ⟨hmain.1 ⟨"AB12", ()⟩ (by decide),
    (hmain.2 "ZZ99" true false (by decide)).2⟩

/-- The fail-reason discipline: no reason while in PENDING, WAITING or
COMPLETED. -/
def ReasonInv (ch : Challenge CR) : Prop :=
  (ch.state = States.PENDING ∨ ch.state = States.WAITING ∨
    ch.state = States.COMPLETED) → ch.fail_reason = none

theorem reasonInv_of_fail_reason_none (ch : Challenge CR)
    (hf : ch.fail_reason = none) : ReasonInv ch :=
  fun _ => hf

theorem reasonInv_of_state_failed (ch : Challenge CR)
    (hs : ch.state = States.FAILED) : ReasonInv ch := by
  intro hst
  rcases hst with h1 | h1 | h1 <;>
    · rw [hs] at h1
      exact States.noConfusion h1

theorem reasonInv_of_state_failure (ch : Challenge CR)
    (hs : ch.state = States.FAILURE) : ReasonInv ch := by
  intro hst
  rcases hst with h1 | h1 | h1 <;>
    · rw [hs] at h1
      exact States.noConfusion h1

theorem createCaptcha_reasonInv (gen : String → CR) (ch2 : Challenge CR)
    (hf : ch2.fail_reason = none) :
    ReasonInv (Challenge.createCaptcha gen ch2).2 :=
  reasonInv_of_fail_reason_none _
    (((createCaptcha_fields gen ch2).2.2.2.2.2.2).trans hf)

theorem check_reasonInv (gen : String → CR) (ch : Challenge CR)
    (answer : String) (fc rs : Bool) (h : ReasonInv ch) :
    ReasonInv (Challenge.check gen ch answer fc rs).1 := by
  by_cases hmod : ch.canBeModified = false
  · simp only [Challenge.check, hmod, if_pos rfl]
    exact h
  · have hmod2 : ch.canBeModified = true := by
      cases hcb : ch.canBeModified
      · exact absurd hcb hmod
      · rfl
    have hstate := (canBeModified_iff ch).1 hmod2
    have hfr : ch.fail_reason = none := by
      rcases hstate with h1 | h1
      · exact h (Or.inl h1)
      · exact h (Or.inr (Or.inl h1))
    simp only [Challenge.check, hmod2, Bool.true_eq_false, if_false]
    split
    · split
      · exact reasonInv_of_state_failed _ ((setState_fields _ _ _).2.2.2.1)
      · exact reasonInv_of_fail_reason_none _
          (((createCaptcha_fields gen _).2.2.2.2.2.2).trans hfr)
    · exact reasonInv_of_fail_reason_none _ (by
        rw [setState_none]
        exact ((createCaptcha_fields gen _).2.2.2.2.2.2).trans hfr)

theorem begin_reasonInv (gen : String → CR) (ch : Challenge CR)
    (h : ReasonInv ch) : ReasonInv (Challenge.begin gen ch).1 := by
  simp only [Challenge.begin]
  split
  · exact h
  split
  · exact h
  split
  · exact h
  split
  · exact h
  rename_i h1 h2 h3 h4
  have hP : ch.state = States.PENDING := by
    cases hs : ch.state
    · rfl
    · exact absurd hs h4
    · exact absurd hs h3
    · exact absurd hs h1
    · exact absurd hs h2
  exact createCaptcha_reasonInv gen _ (by
    rw [setState_none]
    exact h (Or.inl hP))

theorem reload_reasonInv (gen : String → CR) (ch : Challenge CR)
    (newCode : String) (it incf : Bool) (h : ReasonInv ch) :
    ReasonInv (Challenge.reload gen ch newCode it incf).1 := by
  cases it <;> cases incf <;>
    · simp only [Challenge.reload]
      split
      · exact h
      split
      · exact h
      rename_i hmod hP
      have hW : ch.state = States.WAITING := by
        have hmod2 : ch.canBeModified = true := by
          cases hcb : ch.canBeModified
          · exact absurd hcb hmod
          · rfl
        rcases (canBeModified_iff ch).1 hmod2 with h1 | h1
        · exact absurd h1 hP
        · exact h1
      exact createCaptcha_reasonInv gen _ (h (Or.inr (Or.inl hW)))

theorem cancel_reasonInv (ch : Challenge CR) (h : ReasonInv ch) :
    ReasonInv (Challenge.cancel ch).1 := by
  simp only [Challenge.cancel]
  split
  · exact h
  · exact reasonInv_of_state_failure _ ((setState_fields _ _ _).2.2.2.1)

theorem reach_reasonInv (gen : String → CR) (ch : Challenge CR)
    (h : Reach gen ch) : ReasonInv ch := by
  induction h with
  | init idArg uuid retriesArg codeArg randomCode => exact fun _ => rfl
  | step_begin _hr ih => exact begin_reasonInv gen _ ih
  | step_check answer fc rs _hr ih => exact check_reasonInv gen _ answer fc rs ih
  | step_reload newCode it incf _hr ih =>
    exact reload_reasonInv gen _ newCode it incf ih
  | step_cancel _hr ih => exact cancel_reasonInv _ ih

/-- C9: on every reachable challenge, the fail reason is `None` whenever the
state is PENDING, WAITING or COMPLETED — equivalently, a non-None reason can
only be present in FAILED or FAILURE (the spec's CANCELLED), the states whose
entering transitions set it. -/
theorem C9_fail_reason_invariant (gen : String → CR) (ch : Challenge CR)
    (h : Reach gen ch)
    (hst : ch.state = States.PENDING ∨ ch.state = States.WAITING ∨
      ch.state = States.COMPLETED) : ch.fail_reason = none :=
  reach_reasonInv gen ch h hst

/-- Witness for C9: after `begin` then a correct `check`, the challenge is
COMPLETED with no fail reason. -/
theorem C9_fail_reason_invariant_witness :
    (Challenge.check (fun _ => ()) (Challenge.begin (fun _ => ())
        (Challenge.init none "U" none (some "AB12") "R")).1
        "AB12" false true).1.state = States.COMPLETED ∧
    (Challenge.check (fun _ => ()) (Challenge.begin (fun _ => ())
        (Challenge.init none "U" none (some "AB12") "R")).1
        "AB12" false true).1.fail_reason = none :=
  ⟨by decide,
   C9_fail_reason_invariant (fun _ => ()) _
     (Reach.step_check "AB12" false true
       (Reach.step_begin (Reach.init none "U" none (some "AB12") "R")))
     (Or.inr (Or.inr (by decide)))⟩
